import Mathlib

/-!
Verification of the Jira daily task extractor scripts.

This file gives a shallow embedding of the two Python source files
`jira_daily_activity_logger.py` (the most recent variant, embedded at top
level) and `daily-dev-creator.py` (embedded in the `DevCreator` namespace
where its behaviour differs), together with theorems settling the frozen
claims about the specification.

Modelling conventions:
* A `datetime` value is modelled as an `Int`: microseconds since
  0001-01-01 00:00:00 in the proleptic Gregorian calendar (so day number
  `t / usecPerDay` has Python weekday `(day) % 7`, because
  0001-01-01 is a Monday).  Python's `datetime` subtraction and
  `replace(hour=0, ...)` become exact `Int` subtraction and flooring
  division; `Int.ediv`/`Int.emod` agree with Python `//`/`%` for the
  positive divisors used here.
* The Jira client is an oracle (`JiraOracle`) of pure response functions;
  the collector additionally returns the trace of API calls it issued.
* Python exceptions that abort a function are modelled with `Option`.
-/

/-- Microseconds in one day. -/
def usecPerDay : Int := 86400000000

/-- Microseconds in one second. -/
def usecPerSec : Int := 1000000

/-- Python `weekday()` of the day containing instant `t`
(Monday = 0, ..., Sunday = 6). -/
def pyWeekday (t : Int) : Int := (t / usecPerDay) % 7

/-- Gregorian leap-year test, as in Python's `calendar`/`datetime`. -/
def isLeap (y : Nat) : Bool := (y % 4 == 0 && y % 100 != 0) || y % 400 == 0

/-- Days in month `m` (1-12) of year `y`. -/
def daysInMonth (y m : Nat) : Nat :=
  [31, if isLeap y then 29 else 28, 31, 30, 31, 30, 31, 31, 30, 31, 30, 31].getD (m - 1) 0

/-- Days in year `y` strictly before month `m` (1-12). -/
def daysBeforeMonth (y m : Nat) : Nat :=
  [0, 31, 59, 90, 120, 151, 181, 212, 243, 273, 304, 334].getD (m - 1) 0
    + (if isLeap y && decide (3 ≤ m) then 1 else 0)

/-- Days from 0001-01-01 to year `y`, month `m`, day `d`
(the proleptic-Gregorian ordinal used by Python's `datetime`, minus one). -/
def daysFromCivil (y m d : Nat) : Nat :=
  365 * (y - 1) + (y - 1) / 4 - (y - 1) / 100 + (y - 1) / 400
    + daysBeforeMonth y m + (d - 1)

/-- Inverse of `daysFromCivil`: the calendar date `(y, m, d)` of day
number `r` (days since 0001-01-01). -/
def civilFromDays (r : Nat) : Nat × Nat × Nat :=
  let z := r + 306
  let era := z / 146097
  let doe := z % 146097
  let yoe := (doe - doe / 1460 + doe / 36524 - doe / 146096) / 365
  let y := yoe + era * 400
  let doy := doe - (365 * yoe + yoe / 4 - yoe / 100)
  let mp := (5 * doy + 2) / 153
  let d := doy - (153 * mp + 2) / 5 + 1
  let m := if mp < 10 then mp + 3 else mp - 9
  (if m ≤ 2 then y + 1 else y, m, d)

/-- Decimal digit string to `Nat` (callers check `Char.isDigit` first). -/
def digitsToNat (cs : List Char) : Nat :=
  cs.foldl (fun a c => 10 * a + (c.toNat - 48)) 0

/-- Split a character list at every occurrence of `c` (the semantics of
Python `str.split(c)`, kernel-reducible unlike `String.splitOn`). -/
def splitOnChar (c : Char) : List Char → List (List Char)
  | [] => [[]]
  | a :: rest =>
    match splitOnChar c rest with
    | g :: gs => if a = c then [] :: g :: gs else (a :: g) :: gs
    | [] => if a = c then [[], []] else [[a]]

/-- Python `s.split("T")[0]`: the prefix of `s` before the first `'T'`. -/
def beforeT (s : String) : String :=
  String.mk (s.data.takeWhile (fun ch => ch ≠ 'T'))

/-- Python `str.strip()`: remove leading and trailing whitespace
(kernel-reducible counterpart of `String.trim`). -/
def pyStrip (s : String) : String :=
  String.mk (((s.data.dropWhile Char.isWhitespace).reverse.dropWhile Char.isWhitespace).reverse)

/-- Lexicographic comparison of character lists by code point. -/
def pyStrLtChars : List Char → List Char → Bool
  | [], [] => false
  | [], _ :: _ => true
  | _ :: _, [] => false
  | a :: as, b :: bs =>
    if a.toNat < b.toNat then true
    else if b.toNat < a.toNat then false
    else pyStrLtChars as bs

/-- Python string `<` (code-point lexicographic order, the semantics of
Lean's `String` order too, but kernel-reducible). -/
def pyStrLt (s t : String) : Bool := pyStrLtChars s.data t.data

/-- Zero-pad to two digits, as Python `strftime` does for `%m`, `%d`,
`%H`, `%M`. -/
def pad2 (n : Nat) : String :=
  if n < 10 then "0" ++ toString n else toString n

/-- Zero-pad a year to four digits (`%Y`). -/
def pad4 (n : Nat) : String :=
  if n < 10 then "000" ++ toString n
  else if n < 100 then "00" ++ toString n
  else if n < 1000 then "0" ++ toString n
  else toString n

/-- The `strftime('%Y-%m-%d')` rendering of the instant `t`. -/
def strftimeYmd (t : Int) : String :=
  let c := civilFromDays (t / usecPerDay).toNat
  pad4 c.1 ++ "-" ++ pad2 c.2.1 ++ "-" ++ pad2 c.2.2

/-- The `strftime('%Y-%m-%d %H:%M')` rendering of the instant `t`, the format the
source uses for the window-boundary strings. -/
def strftimeYmdHM (t : Int) : String :=
  let rem := t % usecPerDay
  strftimeYmd t ++ " " ++ pad2 ((rem / 3600000000).toNat)
    ++ ":" ++ pad2 (((rem % 3600000000) / 60000000).toNat)

/-- The `strftime('%d')` rendering of the instant `t` (zero-padded day of month). -/
def strftimeDay (t : Int) : String :=
  pad2 (civilFromDays (t / usecPerDay).toNat).2.2

/-- Abbreviated month names used by `strftime('%b')` in the C locale. -/
def monthAbbrevs : List String :=
  ["Jan", "Feb", "Mar", "Apr", "May", "Jun", "Jul", "Aug", "Sep", "Oct", "Nov", "Dec"]

/-- The `strftime('%b')` rendering of the instant `t`. -/
def strftimeMonthAbbrev (t : Int) : String :=
  monthAbbrevs.getD ((civilFromDays (t / usecPerDay).toNat).2.1 - 1) ""

/-- Model of `datetime.strptime(s, '%Y-%m-%d')` followed by `replace(tzinfo=UTC)`:
`some` midnight of the parsed date (as microseconds since 0001-01-01) on
success, `none` on `ValueError`.  Mirrors CPython's `_strptime` patterns:
`%Y` is exactly four digits, `%m`/`%d` are one or two digits in range, the
whole string must be consumed, and the day must exist in the month. -/
def parseYMD (s : String) : Option Int :=
  match splitOnChar '-' s.data with
  | [ys, ms, ds] =>
    if ys.length = 4 ∧ ys.all Char.isDigit
        ∧ 1 ≤ ms.length ∧ ms.length ≤ 2 ∧ ms.all Char.isDigit
        ∧ 1 ≤ ds.length ∧ ds.length ≤ 2 ∧ ds.all Char.isDigit then
      let y := digitsToNat ys
      let m := digitsToNat ms
      let d := digitsToNat ds
      if 1 ≤ y ∧ 1 ≤ m ∧ m ≤ 12 ∧ 1 ≤ d ∧ d ≤ daysInMonth y m then
        some ((daysFromCivil y m d : Int) * usecPerDay)
      else none
    else none
  | _ => none

/-- Model of `datetime.strptime(s, '%Y-%m-%dT%H:%M:%S.%f%z').astimezone(UTC)`:
`some` UTC instant in microseconds on success, `none` on `ValueError`.
Accepts the shapes Jira emits: `YYYY-MM-DDTHH:MM:SS` then `.` and one to
six fractional digits (zero-padded on the right, as `%f` does in
`strptime`), then a `+HHMM`/`-HHMM` offset; `astimezone(UTC)` subtracts
the offset. -/
def parseJiraTs (s : String) : Option Int :=
  match s.data with
  | y1 :: y2 :: y3 :: y4 :: '-' :: m1 :: m2 :: '-' :: d1 :: d2 :: 'T'
      :: h1 :: h2 :: ':' :: mi1 :: mi2 :: ':' :: s1 :: s2 :: '.' :: rest =>
    let frac := rest.takeWhile Char.isDigit
    let tzPart := rest.dropWhile Char.isDigit
    if [y1, y2, y3, y4, m1, m2, d1, d2, h1, h2, mi1, mi2, s1, s2].all Char.isDigit
        ∧ 1 ≤ frac.length ∧ frac.length ≤ 6 then
      match tzPart with
      | [sign, z1, z2, z3, z4] =>
        if (sign = '+' ∨ sign = '-') ∧ [z1, z2, z3, z4].all Char.isDigit then
          let y := digitsToNat [y1, y2, y3, y4]
          let mo := digitsToNat [m1, m2]
          let d := digitsToNat [d1, d2]
          let h := digitsToNat [h1, h2]
          let mi := digitsToNat [mi1, mi2]
          let sec := digitsToNat [s1, s2]
          if 1 ≤ y ∧ 1 ≤ mo ∧ mo ≤ 12 ∧ 1 ≤ d ∧ d ≤ daysInMonth y mo
              ∧ h ≤ 23 ∧ mi ≤ 59 ∧ sec ≤ 59 then
            let micro := digitsToNat frac * 10 ^ (6 - frac.length)
            let localTs : Int := (daysFromCivil y mo d : Int) * usecPerDay
              + ((h * 3600 + mi * 60 + sec : Nat) : Int) * usecPerSec + (micro : Int)
            let offUsec : Int := ((digitsToNat [z1, z2] * 3600 + digitsToNat [z3, z4] * 60 : Nat) : Int) * usecPerSec
            some (localTs - (if sign = '+' then offUsec else -offUsec))
          else none
        else none
      | _ => none
    else none
  | _ => none

/-- Python truthiness of the `custom_date` argument (`None` and `""` are
falsy). -/
def strTruthy : Option String → Bool
  | none => false
  | some s => s ≠ ""

/-- The function `fetch_previous_working_day(custom_date)` from
`jira_daily_activity_logger.py` (lines 30-53).  `now` is the current UTC
instant; the result is `some (start_of_day, end_of_day)` or `none` when a
supplied date fails to parse. -/
def fetch_previous_working_day (now : Int) (custom_date : Option String) : Option (Int × Int) :=
  let nowUtc : Option Int :=
    if strTruthy custom_date then
      parseYMD (custom_date.getD "")
    else
      some (if pyWeekday now = 0 then now - 3 * usecPerDay
        else if pyWeekday now = 6 then now - 2 * usecPerDay
        else if pyWeekday now = 5 then now - usecPerDay
        else now - usecPerDay)
  match nowUtc with
  | none => none
  | some t =>
    let start_of_day := t / usecPerDay * usecPerDay
    some (start_of_day, start_of_day + usecPerDay - usecPerSec)

namespace DevCreator

/-- The function `fetch_previous_working_day()` from `daily-dev-creator.py`
(lines 29-39): no custom date, and only Monday is special-cased. -/
def fetch_previous_working_day (now : Int) : Int × Int :=
  let previous_working_day :=
    if pyWeekday now = 0 then now - 3 * usecPerDay else now - usecPerDay
  let start_of_day := previous_working_day / usecPerDay * usecPerDay
  (start_of_day, start_of_day + usecPerDay - usecPerSec)

end DevCreator

/-- The function `format_time(seconds)` (identical in both source files): `None`
renders as `"N/A"`, otherwise `"{seconds // 3600}h {(seconds % 3600) // 60}m"`.
`Int.ediv`/`Int.emod` agree with Python `//`/`%` for these positive
divisors. -/
def format_time : Option Int → String
  | none => "N/A"
  | some seconds =>
    let hours := seconds / 3600
    let minutes := (seconds % 3600) / 60
    toString hours ++ "h " ++ toString minutes ++ "m"

/-! ## Activity Collector (`fetch_daily_activities`) -/

/-- A worklog entry as returned by `jira.worklogs`: `started` is the raw
timestamp string the source parses, `timeSpentSeconds` the logged
duration. -/
structure WorklogEntry where
  started : String
  timeSpentSeconds : Int
deriving DecidableEq

/-- A comment as returned by `jira.comments`. -/
structure RawComment where
  body : String
  created : String
deriving DecidableEq

/-- One item of a changelog history entry. -/
structure HistoryItem where
  field : String
  fromString : String
  toString : String
deriving DecidableEq

/-- One changelog history entry. -/
structure History where
  created : String
  items : List HistoryItem
deriving DecidableEq

/-- The fields of an issue that the source reads. -/
structure Issue where
  key : String
  summary : String
  timeoriginalestimate : Option Int
  timespent : Option Int
  created : String
  updated : String
  histories : List History
deriving DecidableEq

/-- The comment dictionary stored in an `ActivityRecord`
(`{"body": ..., "created": created.split("T")[0]}`). -/
structure CommentText where
  body : String
  created : String
deriving DecidableEq

/-- The status-change dictionary stored in an `ActivityRecord`
(`{"from": ..., "to": ..., "date": ...}`). -/
structure StatusChange where
  «from» : String
  «to» : String
  date : String
deriving DecidableEq

/-- The activity dictionary assembled per issue (`activity_list` entry). -/
structure Activity where
  issue_key : String
  issue_summary : String
  issue_link : String
  original_estimate : Option Int
  time_spent : Option Int
  comments : List CommentText
  status_changes : List StatusChange
  created : String
  updated : String
deriving DecidableEq

/-- One call to the Jira API made by the collector. -/
inductive ApiCall where
  | searchIssues (jql : String)
  | worklogs (issueKey : String)
  | comments (issueKey : String)
deriving DecidableEq

/-- The Jira client as a pure oracle of responses. -/
structure JiraOracle where
  searchIssues : String → List Issue
  worklogs : String → List WorklogEntry
  comments : String → List RawComment

/-- The worklog loop of `fetch_daily_activities` (lines 85-89): sum
`timeSpentSeconds` over entries whose parsed `started` instant satisfies
`start_of_day <= worklog_date <= end_of_day`; a parse failure raises
(returns `none`). -/
def sumWorklogs (start_of_day end_of_day : Int) : List WorklogEntry → Int → Option Int
  | [], acc => some acc
  | w :: ws, acc =>
    match parseJiraTs w.started with
    | none => none
    | some worklog_date =>
      sumWorklogs start_of_day end_of_day ws
        (if start_of_day ≤ worklog_date ∧ worklog_date ≤ end_of_day
         then acc + w.timeSpentSeconds else acc)

/-- The comment comprehension of `fetch_daily_activities` (lines 93-100):
keep comments with `comment.created > start_of_day_str and comment.body`
(Python string comparison and truthiness), projecting to body and the
date part of `created`. -/
def collectComments (start_of_day_str : String) : List RawComment → List CommentText
  | [] => []
  | c :: cs =>
    if pyStrLt start_of_day_str c.created && !(c.body == "") then
      { body := c.body, created := beforeT c.created } :: collectComments start_of_day_str cs
    else
      collectComments start_of_day_str cs

/-- The inner item loop of the changelog scan (lines 105-113). -/
def collectStatusItems (start_of_day end_of_day : Int) (created : String) :
    List HistoryItem → Option (List StatusChange)
  | [] => some []
  | item :: items =>
    if item.field = "status" then
      match parseJiraTs created with
      | none => none
      | some status_change_time =>
        match collectStatusItems start_of_day end_of_day created items with
        | none => none
        | some rest =>
          some (if start_of_day ≤ status_change_time ∧ status_change_time ≤ end_of_day
            then { «from» := item.fromString, «to» := item.toString,
                   date := strftimeYmdHM status_change_time } :: rest
            else rest)
    else collectStatusItems start_of_day end_of_day created items

/-- The changelog scan of `fetch_daily_activities` (lines 103-113). -/
def collectStatusChanges (start_of_day end_of_day : Int) :
    List History → Option (List StatusChange)
  | [] => some []
  | h :: hs =>
    match collectStatusItems start_of_day end_of_day h.created h.items with
    | none => none
    | some xs =>
      match collectStatusChanges start_of_day end_of_day hs with
      | none => none
      | some ys => some (xs ++ ys)

/-- The activity dictionary built for one issue (lines 116-126). -/
def mkActivity (jira_server start_of_day_str : String) (issue : Issue)
    (worklog_time_total : Int) (comments : List RawComment)
    (status_changes : List StatusChange) : Activity :=
  { issue_key := issue.key
    issue_summary := issue.summary
    issue_link := jira_server ++ "/browse/" ++ issue.key
    original_estimate := issue.timeoriginalestimate
    time_spent := some worklog_time_total
    comments := collectComments start_of_day_str comments
    status_changes := status_changes
    created := beforeT issue.created
    updated := beforeT issue.updated }

/-- The per-issue loop of `fetch_daily_activities` (lines 74-126),
threading the API-call trace; a raised parse error aborts the whole
collection (`none`), as the enclosing `try` does. -/
def goIssues (jira_server start_of_day_str : String) (o : JiraOracle)
    (start_of_day end_of_day : Int) :
    List Issue → List Activity → List ApiCall → Option (List Activity) × List ApiCall
  | [], acc, tr => (some acc, tr)
  | issue :: rest, acc, tr =>
    let tr := tr ++ [ApiCall.worklogs issue.key]
    match sumWorklogs start_of_day end_of_day (o.worklogs issue.key) 0 with
    | none => (none, tr)
    | some worklog_time_total =>
      let tr := tr ++ [ApiCall.comments issue.key]
      match collectStatusChanges start_of_day end_of_day issue.histories with
      | none => (none, tr)
      | some status_changes =>
        goIssues jira_server start_of_day_str o start_of_day end_of_day rest
          (acc ++ [mkActivity jira_server start_of_day_str issue worklog_time_total
            (o.comments issue.key) status_changes]) tr

/-- The function `fetch_daily_activities(custom_date)` from
`jira_daily_activity_logger.py` (lines 56-141), returning the collected
activities (`none` models an aborted run) together with the trace of API
calls issued. -/
def fetch_daily_activities (jira_server : String) (o : JiraOracle) (now : Int)
    (custom_date : Option String) : Option (List Activity) × List ApiCall :=
  match fetch_previous_working_day now custom_date with
  | none => (none, [])
  | some (start_of_day, end_of_day) =>
    let start_of_day_str := strftimeYmdHM start_of_day
    let end_of_day_str := strftimeYmdHM end_of_day
    let jql_query := "updated >= \"" ++ start_of_day_str ++ "\" AND updated < \""
      ++ end_of_day_str ++ "\" AND assignee = currentUser() AND project != DEV ORDER BY updated DESC"
    let issues := o.searchIssues jql_query
    goIssues jira_server start_of_day_str o start_of_day end_of_day issues []
      [ApiCall.searchIssues jql_query]

/-! ## Report Renderer (the `__main__` loop, lines 234-277) -/

/-- Python `x or 0` applied to a possibly-`None` duration (lines 240-241):
`None` and `0` are falsy and yield `0`, any other integer is kept. -/
def orZero : Option Int → Int
  | none => 0
  | some v => v

/-- The per-activity panel of the report (lines 247-267). -/
def render_activity (activity : Activity) : String :=
  let original_estimate := orZero activity.original_estimate
  let time_spent := orZero activity.time_spent
  let s :=
    "\x7bpanel:title=" ++ activity.issue_key ++ " - " ++ activity.issue_summary
      ++ "|borderStyle=dashed|borderColor=#A9A9A9|titleBGColor=#E6F7E6|bgColor=#deebff\x7d\n"
      ++ "*Link*: [" ++ activity.issue_link ++ "]\n"
      ++ "*Original Estimate*: " ++ format_time (some original_estimate) ++ "\n"
      ++ "*Created*: " ++ activity.created ++ "\n"
      ++ "*Updated*: " ++ activity.updated ++ "\n"
      ++ "*Time Spent*: " ++ format_time (some time_spent) ++ "\n"
  let s :=
    if activity.status_changes ≠ [] then
      s ++ "\n*Status Changes:*\n"
        ++ String.join (activity.status_changes.map (fun change =>
            " - From '" ++ change.«from» ++ "' to '" ++ change.«to» ++ "' on " ++ change.date ++ "\n"))
    else s
  let s :=
    if activity.comments.length > 0 then
      s ++ "\n*Comments:*\n"
        ++ String.join (activity.comments.map (fun comment =>
            "* " ++ comment.body ++ " (on " ++ comment.created ++ ")\n"))
    else s
  s ++ "\x7bpanel\x7d\n\n----\n\n"

/-- The trailing totals panel (lines 269-277). -/
def render_totals (daily_activities : List Activity) : String :=
  let total_original_estimate := (daily_activities.map (fun a => orZero a.original_estimate)).sum
  let total_time_spent := (daily_activities.map (fun a => orZero a.time_spent)).sum
  "\x7bpanel:title=Total Time Summary|borderStyle=dashed|borderColor=#A9A9A9|titleBGColor=#E6F7E6|bgColor=#deebff\x7d\n"
    ++ "*Total Original Estimate*: " ++ format_time (some total_original_estimate) ++ "\n"
    ++ "*Total Time Spent*: " ++ format_time (some total_time_spent) ++ "\n"
    ++ "\x7bpanel\x7d\n"

/-- The full rendered report: per-activity panels in collector order,
then the totals panel. -/
def render_report (daily_activities : List Activity) : String :=
  String.join (daily_activities.map render_activity) ++ render_totals daily_activities

/-! ## Work-Log Upserter (`create_daily_work_log`, lines 144-216) -/

/-- A sub-task as stored by the tracker: the fields the source writes or
queries.  `comments` is the ordered comment journal. -/
structure SubTask where
  key : String
  parent : String
  summary : String
  description : String
  startDate : String
  comments : List String
deriving DecidableEq

/-- The externally visible outcome of one `create_daily_work_log` run. -/
inductive UpsertAction where
  | failedNoEpic
  | failedNoMonthly
  | commented (subTaskKey : String)
  | created (subTaskKey : String) (assignee : String)
deriving DecidableEq

/-- Model of `jira.add_comment(sub_task_key, activity_string)`: append the comment
to every stored sub-task with that key (keys are unique in the tracker). -/
def add_comment (st : List SubTask) (sub_task_key activity_string : String) : List SubTask :=
  st.map (fun t => if t.key = sub_task_key
    then { t with comments := t.comments ++ [activity_string] } else t)

/-- The tracker's answer to the sub-task query
`parent = {monthly_issue_key} AND "Start date" = {today_str}` (line 187). -/
def matchingSubTasks (st : List SubTask) (monthly_issue_key today_str : String) : List SubTask :=
  st.filter (fun t => t.parent == monthly_issue_key && t.startDate == today_str)

/-- The function `create_daily_work_log(activity_string)` (lines 144-216).  `epics` and
`monthly_issues` are the keys the tracker returns for the epic and
monthly-task JQL queries (lines 164-184; the epic key is only logged),
`now` is `datetime.now()`, `newKey` the key the tracker would assign to a
created issue, and `st` the tracker's stored sub-tasks.  Returns the
updated store and the action taken. -/
def create_daily_work_log (current_user_display_name : String)
    (epics monthly_issues : List String) (now : Int) (newKey : String)
    (activity_string : String) (st : List SubTask) : List SubTask × UpsertAction :=
  let day := strftimeDay now
  let month := strftimeMonthAbbrev now
  let today_str := strftimeYmd now
  match epics with
  | [] => (st, UpsertAction.failedNoEpic)
  | _ :: _ =>
    match monthly_issues with
    | [] => (st, UpsertAction.failedNoMonthly)
    | monthly_issue_key :: _ =>
      match matchingSubTasks st monthly_issue_key today_str with
      | sub_task :: _ =>
        (add_comment st sub_task.key activity_string, UpsertAction.commented sub_task.key)
      | [] =>
        let sub_task_summary := day ++ ", " ++ month
        let newTask : SubTask :=
          { key := newKey, parent := monthly_issue_key, summary := sub_task_summary,
            description := activity_string, startDate := today_str, comments := [] }
        (st ++ [newTask], UpsertAction.created newKey current_user_display_name)

/-! ## The `__main__` pipeline (lines 227-282) -/

/-- The statement `custom_date = custom_date.strip() if custom_date else None`
(lines 229-230). -/
def mainCustomDate (inputLine : String) : Option String :=
  if inputLine ≠ "" then some (pyStrip inputLine) else none

/-- Everything observable about one run of `__main__`. -/
structure RunResult where
  apiTrace : List ApiCall
  collected : Option (List Activity)
  upserterInvoked : Bool
  report : Option String
  finalSubTasks : List SubTask
  upsertAction : Option UpsertAction

/-- The `__main__` block of `jira_daily_activity_logger.py`: read a date,
collect activities, and — only when the result is truthy (a non-empty
list) — render the report and call `create_daily_work_log`. -/
def mainRun (jira_server : String) (o : JiraOracle) (now : Int) (inputLine : String)
    (current_user_display_name : String) (epics monthly_issues : List String)
    (newKey : String) (st : List SubTask) : RunResult :=
  let p := fetch_daily_activities jira_server o now (mainCustomDate inputLine)
  match p.1 with
  | some (a :: rest) =>
    let activity_string := render_report (a :: rest)
    let upsert := create_daily_work_log current_user_display_name epics monthly_issues
      now newKey activity_string st
    { apiTrace := p.2, collected := p.1, upserterInvoked := true,
      report := some activity_string, finalSubTasks := upsert.1,
      upsertAction := some upsert.2 }
  | _ =>
    { apiTrace := p.2, collected := p.1, upserterInvoked := false,
      report := none, finalSubTasks := st, upsertAction := none }

/-! ## Concrete data used by witnesses and counterexamples -/

/-- Whether `needle` is a prefix of `hay` (boolean, kernel-reducible). -/
def startsWithB : List Char → List Char → Bool
  | [], _ => true
  | _ :: _, [] => false
  | a :: as, b :: bs => a == b && startsWithB as bs

/-- Whether `needle` occurs contiguously inside `hay`. -/
def containsChars (needle : List Char) : List Char → Bool
  | [] => needle.isEmpty
  | b :: rest => startsWithB needle (b :: rest) || containsChars needle rest

/-- A concrete activity record whose original estimate is absent. -/
def sampleActivityNoEstimate : Activity :=
  { issue_key := "K-1", issue_summary := "S", issue_link := "http://s/browse/K-1",
    original_estimate := none, time_spent := some 0, comments := [],
    status_changes := [], created := "2024-08-01", updated := "2024-08-13" }

/-- An oracle that answers every query with nothing. -/
def emptyOracle : JiraOracle :=
  { searchIssues := fun _ => [], worklogs := fun _ => [], comments := fun _ => [] }

/-- An oracle that returns one bare issue for any issue search and
nothing else. -/
def oneIssueOracle : JiraOracle :=
  { searchIssues := fun _ =>
      [{ key := "AB-1", summary := "Fix bug", timeoriginalestimate := none,
         timespent := none, created := "2024-08-13T10:00:00.000+0000",
         updated := "2024-08-13T11:00:00.000+0000", histories := [] }],
    worklogs := fun _ => [], comments := fun _ => [] }

/-! ## Sanity checks of the calendar model -/

theorem strftimeYmd_epoch : strftimeYmd 0 = "0001-01-01" := by decide

theorem strftimeYmdHM_sample :
    strftimeYmdHM ((739111 : Int) * usecPerDay) = "2024-08-14 00:00" := by decide

theorem parseYMD_sample : parseYMD "2024-08-14" = some (739111 * usecPerDay) := by decide

/-! ## Claims -/

/-- Claim C7: `format_time` maps `0` to `"0h 0m"`, `None` to `"N/A"`,
`3661` to `"1h 1m"`, and in general a non-`None` number of seconds `s`
to `"{s // 3600}h {(s % 3600) // 60}m"` (Python floor division and
modulus, i.e. `Int.ediv`/`Int.emod` for these positive divisors). -/
theorem format_time_spec :
    format_time (some 0) = "0h 0m" ∧ format_time none = "N/A" ∧
    format_time (some 3661) = "1h 1m" ∧
    ∀ s : Int, format_time (some s) =
      toString (s / 3600) ++ "h " ++ toString ((s % 3600) / 60) ++ "m" :=
  ⟨by decide, rfl, by decide, fun _ => rfl⟩

/-- Claim C3: every window either resolver computes satisfies
`end == start + 24h - 1s`, and `start` is exactly a midnight (zero
time-of-day, zero microseconds): `start` is a multiple of a day of
microseconds. -/
theorem window_invariant :
    (∀ (now : Int) (custom_date : Option String) (s e : Int),
        fetch_previous_working_day now custom_date = some (s, e) →
        e = s + (86400000000 - 1000000) ∧ s % 86400000000 = 0) ∧
    (∀ now : Int,
        (DevCreator.fetch_previous_working_day now).2
          = (DevCreator.fetch_previous_working_day now).1 + (86400000000 - 1000000)
        ∧ (DevCreator.fetch_previous_working_day now).1 % 86400000000 = 0) := by
  constructor
  · intro now custom_date s e h
    simp only [fetch_previous_working_day] at h
    split at h
    · exact Option.noConfusion h
    · rename_i t _
      simp only [Option.some.injEq, Prod.mk.injEq] at h
      obtain ⟨hs, he⟩ := h
      simp only [usecPerDay, usecPerSec] at hs he
      omega
  · intro now
    simp only [DevCreator.fetch_previous_working_day]
    simp only [usecPerDay, usecPerSec]
    omega

/-- Witness for C3 at the explicit date `2024-08-14`. -/
theorem window_invariant_witness :
    fetch_previous_working_day 0 (some "2024-08-14")
      = some (63859190400000000, 63859276799000000) ∧
    ((63859276799000000 : Int) = 63859190400000000 + (86400000000 - 1000000) ∧
      (63859190400000000 : Int) % 86400000000 = 0) :=
  ⟨by decide, window_invariant.1 0 (some "2024-08-14") 63859190400000000 63859276799000000 (by decide)⟩

/-- Claim C2, amended: with no explicit date, the resolver of
`jira_daily_activity_logger.py` subtracts 3 days on Monday, 2 on Sunday,
1 on Saturday and 1 otherwise, so its resolved day is always the previous
working day (a weekday strictly before today, with only weekend days in
between); the resolver of `daily-dev-creator.py` subtracts 3 days only on
Monday and 1 day on every other day, so it does not always resolve to a
working day. -/
theorem previous_working_day_resolution (now : Int) :
    (∀ s e : Int, fetch_previous_working_day now none = some (s, e) →
      (pyWeekday now = 0 → s = (now / usecPerDay - 3) * usecPerDay) ∧
      (pyWeekday now = 6 → s = (now / usecPerDay - 2) * usecPerDay) ∧
      (pyWeekday now = 5 → s = (now / usecPerDay - 1) * usecPerDay) ∧
      (pyWeekday now ≠ 0 ∧ pyWeekday now ≠ 5 ∧ pyWeekday now ≠ 6 →
        s = (now / usecPerDay - 1) * usecPerDay) ∧
      (s / usecPerDay) % 7 < 5 ∧
      s / usecPerDay < now / usecPerDay ∧
      (∀ x : Int, s / usecPerDay < x → x < now / usecPerDay → 5 ≤ x % 7)) ∧
    ((pyWeekday now = 0 →
        (DevCreator.fetch_previous_working_day now).1 = (now / usecPerDay - 3) * usecPerDay) ∧
      (pyWeekday now ≠ 0 →
        (DevCreator.fetch_previous_working_day now).1 = (now / usecPerDay - 1) * usecPerDay)) := by
  constructor
  · intro s e h
    simp only [fetch_previous_working_day, strTruthy, if_neg, Bool.false_eq_true,
      not_false_iff, ite_false, Option.some.injEq, Prod.mk.injEq] at h
    obtain ⟨hs, _⟩ := h
    simp only [pyWeekday, usecPerDay] at *
    split at hs
    · and_intros <;> intros <;> omega
    · split at hs
      · and_intros <;> intros <;> omega
      · split at hs
        · and_intros <;> intros <;> omega
        · and_intros <;> intros <;> omega
  · simp only [DevCreator.fetch_previous_working_day, pyWeekday, usecPerDay]
    constructor
    · intro h
      simp only [if_pos h]
      omega
    · intro h
      rw [if_neg h]
      omega

/-- Witness for C2: on a Sunday instant the logger's resolver steps back
two days (to Friday). -/
theorem previous_working_day_resolution_witness :
    fetch_previous_working_day 522000000000 none = some (345600000000, 431999000000) ∧
    pyWeekday 522000000000 = 6 ∧
    (345600000000 : Int) = ((522000000000 : Int) / usecPerDay - 2) * usecPerDay :=
  ⟨by decide, by decide,
    ((previous_working_day_resolution 522000000000).1 345600000000 431999000000
      (by decide)).2.1 (by decide)⟩

/-- Counterexample for C2 as stated: in `daily-dev-creator.py` a run on a
Sunday (`now = 522000000000`, day 6 of the proleptic calendar, weekday 6)
subtracts only one day, resolving to day 5 — a Saturday, not the previous
working day, and not two days prior. -/
theorem previous_working_day_sunday_counterexample :
    pyWeekday 522000000000 = 6 ∧
    DevCreator.fetch_previous_working_day 522000000000 = (432000000000, 518399000000) ∧
    ((432000000000 : Int) / usecPerDay) % 7 = 5 ∧
    (432000000000 : Int) ≠ ((522000000000 : Int) / usecPerDay - 2) * usecPerDay := by
  refine ⟨by decide, by decide, by decide, by decide⟩

/-- Accumulator form of C4: the worklog loop computes the running total
plus the sum of `timeSpentSeconds` over exactly the entries whose parsed
`started` instant lies inclusively inside the window. -/
theorem sumWorklogs_eq_filter_sum (start_of_day end_of_day : Int)
    (tsf : WorklogEntry → Int) :
    ∀ (ws : List WorklogEntry) (acc : Int),
      (∀ w ∈ ws, parseJiraTs w.started = some (tsf w)) →
      sumWorklogs start_of_day end_of_day ws acc =
        some (acc + ((ws.filter (fun w =>
            decide (start_of_day ≤ tsf w ∧ tsf w ≤ end_of_day))).map
          (fun w => w.timeSpentSeconds)).sum) := by
  intro ws
  induction ws with
  | nil => intro acc _; simp [sumWorklogs]
  | cons w ws ih =>
    intro acc h
    have hw : parseJiraTs w.started = some (tsf w) := h w (by simp)
    have hrest : ∀ w' ∈ ws, parseJiraTs w'.started = some (tsf w') :=
      fun w' hw' => h w' (List.mem_cons_of_mem _ hw')
    simp only [sumWorklogs, hw]
    rw [ih _ hrest]
    by_cases hc : start_of_day ≤ tsf w ∧ tsf w ≤ end_of_day <;>
      simp [List.filter_cons, hc]
    all_goals omega

/-- Claim C4: for every issue collected, the `time_spent` stored in its
activity record is the total the worklog loop computes, and that total is
the sum of `timeSpentSeconds` over exactly the worklog entries whose
`started` instant lies in the window inclusively at both ends
(`start <= started <= end`); entries outside contribute nothing. -/
theorem worklog_sum_in_window (start_of_day end_of_day : Int)
    (ws : List WorklogEntry) (tsf : WorklogEntry → Int)
    (h : ∀ w ∈ ws, parseJiraTs w.started = some (tsf w)) :
    sumWorklogs start_of_day end_of_day ws 0 =
      some (((ws.filter (fun w =>
          decide (start_of_day ≤ tsf w ∧ tsf w ≤ end_of_day))).map
        (fun w => w.timeSpentSeconds)).sum) ∧
    ∀ (jira_server start_of_day_str : String) (issue : Issue)
      (total : Int) (cs : List RawComment) (schs : List StatusChange),
      (mkActivity jira_server start_of_day_str issue total cs schs).time_spent = some total := by
  constructor
  · rw [sumWorklogs_eq_filter_sum start_of_day end_of_day tsf ws 0 h]
    simp
  · intro _ _ _ _ _ _
    rfl

/-- Witness for C4: a window around 2024-08-14 (UTC) with one worklog
inside the window (3600 s) and one the day before (100 s). -/
theorem worklog_sum_in_window_witness :
    (∀ w ∈ [WorklogEntry.mk "2024-08-14T01:00:00.000+0000" 3600,
            WorklogEntry.mk "2024-08-13T01:00:00.000+0000" 100],
        parseJiraTs w.started = some ((parseJiraTs w.started).getD 0)) ∧
    sumWorklogs 63859190400000000 63859276799000000
      [WorklogEntry.mk "2024-08-14T01:00:00.000+0000" 3600,
       WorklogEntry.mk "2024-08-13T01:00:00.000+0000" 100] 0 = some 3600 :=
  ⟨by decide, by
    rw [(worklog_sum_in_window 63859190400000000 63859276799000000
      [WorklogEntry.mk "2024-08-14T01:00:00.000+0000" 3600,
       WorklogEntry.mk "2024-08-13T01:00:00.000+0000" 100]
      (fun w => (parseJiraTs w.started).getD 0) (by decide)).1]
    decide⟩

/-- Claim C5, amended: a comment enters the activity record's list exactly
when Python's *string* comparison `comment.created > start_of_day_str`
holds (lexicographic, against the `'%Y-%m-%d %H:%M'`-formatted window
start) and its body is non-empty.  Because Jira's `created` strings put a
`'T'` after the date while the window string has a space there, this is
not the instant order: a comment whose instant is at — or, with a
positive UTC offset, even before — the window start is still included. -/
theorem comment_filter_is_string_compare (start_of_day_str : String)
    (cs : List RawComment) :
    collectComments start_of_day_str cs =
      (cs.filter (fun c => pyStrLt start_of_day_str c.created && !(c.body == ""))).map
        (fun c => { body := c.body, created := beforeT c.created }) := by
  induction cs with
  | nil => rfl
  | cons c cs ih =>
    by_cases h : (pyStrLt start_of_day_str c.created && !(c.body == "")) = true <;>
      simp [collectComments, List.filter_cons, h, ih]

/-- Appending a comment does not change the number of stored sub-tasks. -/
theorem add_comment_length (st : List SubTask) (k r : String) :
    (add_comment st k r).length = st.length := by
  simp [add_comment]

/-- Commenting changes no `parent`/`startDate` field, so it commutes with
the sub-task query. -/
theorem matching_add_comment (st : List SubTask) (k r mk d : String) :
    matchingSubTasks (add_comment st k r) mk d
      = (matchingSubTasks st mk d).map
        (fun t => if t.key = k then { t with comments := t.comments ++ [r] } else t) := by
  induction st with
  | nil => rfl
  | cons t ts ih =>
    by_cases hk : t.key = k <;>
      by_cases hp : (t.parent == mk && t.startDate == d) = true <;>
        simp_all [add_comment, matchingSubTasks, List.filter_cons]

/-- The key/comment view of a store after `add_comment`: the targeted
key's journal grows by one comment at the end, all else is unchanged. -/
theorem add_comment_keyComments (st : List SubTask) (k r : String) :
    (add_comment st k r).map (fun t => (t.key, t.comments))
      = st.map (fun t => (t.key, if t.key = k then t.comments ++ [r] else t.comments)) := by
  induction st with
  | nil => rfl
  | cons t ts ih =>
    by_cases hk : t.key = k <;> simp_all [add_comment]

/-- The key/comment view after two `add_comment`s on the same key. -/
theorem add_comment_twice_keyComments (st : List SubTask) (k r1 r2 : String) :
    (add_comment (add_comment st k r1) k r2).map (fun t => (t.key, t.comments))
      = st.map (fun t => (t.key, if t.key = k then t.comments ++ [r1, r2] else t.comments)) := by
  induction st with
  | nil => rfl
  | cons t ts ih =>
    by_cases hk : t.key = k <;> simp_all [add_comment]

/-- The sub-task query distributes over an appended store. -/
theorem matching_append (st st' : List SubTask) (mk d : String) :
    matchingSubTasks (st ++ st') mk d
      = matchingSubTasks st mk d ++ matchingSubTasks st' mk d := by
  simp [matchingSubTasks, List.filter_append]

/-- Claim C6, amended: in the rendered report a missing/`None` duration is
first coalesced to `0` (Python `x or 0`, lines 240-241) and therefore
renders exactly as a zero duration, `"0h 0m"` — the `"N/A"` branch of
`format_time` is never reached from the renderer. -/
theorem missing_duration_renders_as_zero (a : Activity) :
    render_activity { a with original_estimate := none }
      = render_activity { a with original_estimate := some 0 } ∧
    render_activity { a with time_spent := none }
      = render_activity { a with time_spent := some 0 } :=
  ⟨rfl, rfl⟩

/-- Counterexample for C6 as stated: for an activity with a missing
(`None`) original estimate, the rendered block contains
`"*Original Estimate*: 0h 0m"` and the literal `"N/A"` appears nowhere in
it. -/
theorem missing_duration_counterexample :
    sampleActivityNoEstimate.original_estimate = none ∧
    containsChars "N/A".data (render_activity sampleActivityNoEstimate).data = false ∧
    containsChars "*Original Estimate*: 0h 0m".data
      (render_activity sampleActivityNoEstimate).data = true := by
  refine ⟨rfl, by decide, by decide⟩

/-- Counterexample for C5 as stated: for the 2024-08-14 window, a comment
created at `2024-08-14T00:00:00.000+0900` — an instant strictly *before*
the window start (it is 2024-08-13 15:00 UTC) — is nonetheless included,
because the string `"2024-08-14T..."` compares greater than
`"2024-08-14 00:00"`. -/
theorem comment_window_counterexample :
    fetch_previous_working_day 0 (some "2024-08-14")
      = some (63859190400000000, 63859276799000000) ∧
    strftimeYmdHM 63859190400000000 = "2024-08-14 00:00" ∧
    parseJiraTs "2024-08-14T00:00:00.000+0900" = some 63859158000000000 ∧
    (63859158000000000 : Int) < 63859190400000000 ∧
    collectComments "2024-08-14 00:00"
        [{ body := "x", created := "2024-08-14T00:00:00.000+0900" }]
      = [{ body := "x", created := "2024-08-14" }] := by
  refine ⟨by decide, by decide, by decide, by decide, by decide⟩

/-- Claim C1: once the monthly task is resolved (`monthlies` non-empty; the
epic gate also passed): if a sub-task of the monthly task whose start-date
field is today's date exists, the report is added as a new comment on it
(the old journal is preserved as a prefix) and no sub-task is created (the
store size and the set of matching sub-tasks are unchanged, and re-running
the same day appends a second comment, never a second sub-task, never an
overwrite); if none exists, a new sub-task is created under the monthly
task with summary `"{day}, {month}"`, description the report, and
start-date today. -/
theorem upsert_behavior (current_user_display_name e : String) (er : List String)
    (mk : String) (mr : List String) (now : Int) (k1 k2 r1 r2 : String)
    (st : List SubTask) :
    (∀ t0 ts, matchingSubTasks st mk (strftimeYmd now) = t0 :: ts →
      create_daily_work_log current_user_display_name (e :: er) (mk :: mr) now k1 r1 st
        = (add_comment st t0.key r1, UpsertAction.commented t0.key) ∧
      (add_comment st t0.key r1).length = st.length ∧
      (add_comment st t0.key r1).map (fun t => (t.key, t.comments))
        = st.map (fun t => (t.key, if t.key = t0.key then t.comments ++ [r1] else t.comments)) ∧
      (matchingSubTasks (add_comment st t0.key r1) mk (strftimeYmd now)).length
        = (matchingSubTasks st mk (strftimeYmd now)).length) ∧
    (matchingSubTasks st mk (strftimeYmd now) = [] →
      create_daily_work_log current_user_display_name (e :: er) (mk :: mr) now k1 r1 st
        = (st ++ [{ key := k1, parent := mk,
                    summary := strftimeDay now ++ ", " ++ strftimeMonthAbbrev now,
                    description := r1, startDate := strftimeYmd now, comments := [] }],
           UpsertAction.created k1 current_user_display_name)) ∧
    (∀ t0 ts, matchingSubTasks st mk (strftimeYmd now) = t0 :: ts →
      (create_daily_work_log current_user_display_name (e :: er) (mk :: mr) now k2 r2
          (create_daily_work_log current_user_display_name (e :: er) (mk :: mr) now k1 r1 st).1).2
        = UpsertAction.commented t0.key ∧
      (create_daily_work_log current_user_display_name (e :: er) (mk :: mr) now k2 r2
          (create_daily_work_log current_user_display_name (e :: er) (mk :: mr) now k1 r1 st).1).1.length
        = st.length ∧
      (create_daily_work_log current_user_display_name (e :: er) (mk :: mr) now k2 r2
          (create_daily_work_log current_user_display_name (e :: er) (mk :: mr) now k1 r1 st).1).1.map
          (fun t => (t.key, t.comments))
        = st.map (fun t => (t.key, if t.key = t0.key then t.comments ++ [r1, r2] else t.comments))) ∧
    (matchingSubTasks st mk (strftimeYmd now) = [] →
      (create_daily_work_log current_user_display_name (e :: er) (mk :: mr) now k2 r2
          (create_daily_work_log current_user_display_name (e :: er) (mk :: mr) now k1 r1 st).1).2
        = UpsertAction.commented k1 ∧
      (create_daily_work_log current_user_display_name (e :: er) (mk :: mr) now k2 r2
          (create_daily_work_log current_user_display_name (e :: er) (mk :: mr) now k1 r1 st).1).1.length
        = st.length + 1 ∧
      matchingSubTasks
          (create_daily_work_log current_user_display_name (e :: er) (mk :: mr) now k2 r2
            (create_daily_work_log current_user_display_name (e :: er) (mk :: mr) now k1 r1 st).1).1
          mk (strftimeYmd now)
        = [{ key := k1, parent := mk,
             summary := strftimeDay now ++ ", " ++ strftimeMonthAbbrev now,
             description := r1, startDate := strftimeYmd now, comments := [r2] }]) := by
  refine ⟨?_, ?_, ?_, ?_⟩
  · intro t0 ts h
    refine ⟨by simp only [create_daily_work_log, h], add_comment_length st t0.key r1,
      add_comment_keyComments st t0.key r1, ?_⟩
    rw [matching_add_comment, List.length_map]
  · intro h
    simp only [create_daily_work_log, h]
  · intro t0 ts h
    have h1 : create_daily_work_log current_user_display_name (e :: er) (mk :: mr) now k1 r1 st
        = (add_comment st t0.key r1, UpsertAction.commented t0.key) := by
      simp only [create_daily_work_log, h]
    have h2 : matchingSubTasks (add_comment st t0.key r1) mk (strftimeYmd now)
        = ({ t0 with comments := t0.comments ++ [r1] } : SubTask)
            :: ts.map (fun t => if t.key = t0.key then { t with comments := t.comments ++ [r1] } else t) := by
      rw [matching_add_comment, h]
      simp
    rw [h1]
    simp only [create_daily_work_log, h2]
    refine ⟨trivial, ?_, ?_⟩
    · rw [add_comment_length, add_comment_length]
    · exact add_comment_twice_keyComments st t0.key r1 r2
  · intro h
    have h1 : create_daily_work_log current_user_display_name (e :: er) (mk :: mr) now k1 r1 st
        = (st ++ [{ key := k1, parent := mk,
                    summary := strftimeDay now ++ ", " ++ strftimeMonthAbbrev now,
                    description := r1, startDate := strftimeYmd now, comments := [] }],
           UpsertAction.created k1 current_user_display_name) := by
      simp only [create_daily_work_log, h]
    have h2 : matchingSubTasks
        (st ++ [{ key := k1, parent := mk,
                  summary := strftimeDay now ++ ", " ++ strftimeMonthAbbrev now,
                  description := r1, startDate := strftimeYmd now, comments := [] }])
        mk (strftimeYmd now)
        = [{ key := k1, parent := mk,
             summary := strftimeDay now ++ ", " ++ strftimeMonthAbbrev now,
             description := r1, startDate := strftimeYmd now, comments := [] }] := by
      rw [matching_append, h]
      simp [matchingSubTasks]
    rw [h1]
    simp only [create_daily_work_log, h2]
    refine ⟨trivial, ?_, ?_⟩
    · rw [add_comment_length, List.length_append]
      rfl
    · rw [matching_add_comment, h2]
      simp

/-- Witness for C1: an empty store for 2024-08-14 leads to creation of a
sub-task `"14, Aug"` with start date `2024-08-14`. -/
theorem upsert_behavior_witness :
    matchingSubTasks [] "M-1" (strftimeYmd 63859190400000000) = [] ∧
    create_daily_work_log "User" ["E-1"] ["M-1"] 63859190400000000 "S-1" "report" []
      = ([{ key := "S-1", parent := "M-1", summary := "14, Aug",
            description := "report", startDate := "2024-08-14", comments := [] }],
         UpsertAction.created "S-1" "User") :=
  ⟨rfl, by
    rw [(upsert_behavior "User" "E-1" [] "M-1" [] 63859190400000000 "S-1" "k2"
      "report" "r2" []).2.1 rfl]
    decide⟩

/-- Claim C10: the resolved epic is only a gate — once some epic matched,
the entire upsert outcome (created sub-task fields, comment target,
assignee, final store) is independent of which epics were returned. -/
theorem epic_independence (current_user_display_name : String) (e1 e2 : String)
    (er1 er2 : List String) (monthly_issues : List String) (now : Int)
    (newKey activity_string : String) (st : List SubTask) :
    create_daily_work_log current_user_display_name (e1 :: er1) monthly_issues
        now newKey activity_string st
      = create_daily_work_log current_user_display_name (e2 :: er2) monthly_issues
        now newKey activity_string st := rfl

/-- Claim C9: when the collector yields no activities (`None` after an
error, or an empty list — both falsy in Python), `create_daily_work_log`
is never invoked: the store is untouched and no upsert action happens. -/
theorem no_activities_no_upsert (jira_server : String) (o : JiraOracle) (now : Int)
    (inputLine current_user_display_name newKey : String)
    (epics monthly_issues : List String) (st : List SubTask)
    (h : (fetch_daily_activities jira_server o now (mainCustomDate inputLine)).1 = none ∨
         (fetch_daily_activities jira_server o now (mainCustomDate inputLine)).1 = some []) :
    (mainRun jira_server o now inputLine current_user_display_name epics monthly_issues
        newKey st).upserterInvoked = false ∧
    (mainRun jira_server o now inputLine current_user_display_name epics monthly_issues
        newKey st).finalSubTasks = st ∧
    (mainRun jira_server o now inputLine current_user_display_name epics monthly_issues
        newKey st).upsertAction = none := by
  unfold mainRun
  rcases h with h | h <;> simp [h]

/-- Witness for C9: an oracle with no matching issues makes the collector
return an empty list and the upserter is not invoked. -/
theorem no_activities_no_upsert_witness :
    (fetch_daily_activities "http://s" emptyOracle 63859190400000000
        (mainCustomDate "")).1 = some [] ∧
    ((mainRun "http://s" emptyOracle 63859190400000000 "" "User" ["E-1"] ["M-1"]
        "S-1" []).upserterInvoked = false ∧
      (mainRun "http://s" emptyOracle 63859190400000000 "" "User" ["E-1"] ["M-1"]
        "S-1" []).finalSubTasks = [] ∧
      (mainRun "http://s" emptyOracle 63859190400000000 "" "User" ["E-1"] ["M-1"]
        "S-1" []).upsertAction = none) :=
  ⟨by decide,
    no_activities_no_upsert "http://s" emptyOracle 63859190400000000 "" "User"
      "S-1" ["E-1"] ["M-1"] [] (Or.inr (by decide))⟩

/-- Claim C8, amended: `__main__` first strips the supplied string; for
every input whose stripped form is non-empty and does not parse as
`YYYY-MM-DD`, the run logs the invalid-date error and aborts: the
collector returns `None` having made no API call, and the upserter is
never invoked.  (A blank input is treated as "no date", and an input that
becomes a valid date after stripping proceeds normally — see the
counterexample.) -/
theorem invalid_date_aborts (jira_server : String) (o : JiraOracle) (now : Int)
    (inputLine current_user_display_name newKey : String)
    (epics monthly_issues : List String) (st : List SubTask)
    (h1 : pyStrip inputLine ≠ "") (h2 : parseYMD (pyStrip inputLine) = none) :
    fetch_daily_activities jira_server o now (mainCustomDate inputLine) = (none, []) ∧
    (mainRun jira_server o now inputLine current_user_display_name epics monthly_issues
        newKey st).apiTrace = [] ∧
    (mainRun jira_server o now inputLine current_user_display_name epics monthly_issues
        newKey st).collected = none ∧
    (mainRun jira_server o now inputLine current_user_display_name epics monthly_issues
        newKey st).upserterInvoked = false ∧
    (mainRun jira_server o now inputLine current_user_display_name epics monthly_issues
        newKey st).finalSubTasks = st ∧
    (mainRun jira_server o now inputLine current_user_display_name epics monthly_issues
        newKey st).upsertAction = none := by
  have hne : inputLine ≠ "" := by
    intro he
    apply h1
    rw [he]
    rfl
  have hforward : fetch_previous_working_day now (mainCustomDate inputLine) = none := by
    simp only [mainCustomDate, if_pos hne]
    simp [fetch_previous_working_day, strTruthy, h1, h2]
  have hfetch : fetch_daily_activities jira_server o now (mainCustomDate inputLine)
      = (none, []) := by
    simp [fetch_daily_activities, hforward]
  refine ⟨hfetch, ?_⟩
  unfold mainRun
  simp [hfetch]

/-- Witness for C8: the input `"bad-date"` aborts the run with an empty
API trace. -/
theorem invalid_date_aborts_witness :
    pyStrip "bad-date" ≠ "" ∧ parseYMD (pyStrip "bad-date") = none ∧
    fetch_daily_activities "http://s" emptyOracle 0 (mainCustomDate "bad-date")
      = (none, []) :=
  ⟨by decide, by decide,
    (invalid_date_aborts "http://s" emptyOracle 0 "bad-date" "User" "S-1" [] [] []
      (by decide) (by decide)).1⟩

/-- Counterexample for C8 as stated: the explicitly supplied date string
`"2024-08-14 "` (trailing blank) does *not* parse as `YYYY-MM-DD` —
`strptime` would reject it — yet the run does not abort: `__main__`
strips it first, so the collector issues API calls and the upserter is
invoked. -/
theorem invalid_date_counterexample :
    parseYMD "2024-08-14 " = none ∧
    (mainRun "http://s" oneIssueOracle 63859190400000000 "2024-08-14 " "User"
      ["E-1"] ["M-1"] "S-1" []).apiTrace ≠ [] ∧
    (mainRun "http://s" oneIssueOracle 63859190400000000 "2024-08-14 " "User"
      ["E-1"] ["M-1"] "S-1" []).upserterInvoked = true := by
  refine ⟨by decide, by decide, by decide⟩
